import Mathlib

/-
Verification of the pub/sub connection actor (src/client.go, package hub).

The per-connection logic of src/client.go is embedded shallowly:
pure list functions stand for the Topics-slice manipulation, the inbound
pump (listenRead) becomes a recursion over a list of read events, and the
one-shot close guard becomes a state-transformer on an explicit close
state.  The Hub event handlers, the wire-message struct declarations and
the JSON decoder live outside src/ (hub.go and the message file are not
part of the sources given); where a claim depends on them they are
modelled from the spec, and each such definition is marked
"Modelled from the spec:" in its doc comment.
-/

namespace Hub

/-- Modelled from the spec: the action envelope decoded from every inbound
frame (the ActionMessage struct is referenced by src/client.go but declared
in a file outside src/).  Wire shape: a JSON object with an "action"
string field. -/
structure ActionMessage where
  Action : String
deriving DecidableEq, Repr

/-- Modelled from the spec: the subscribe variant of an inbound frame (the
SubscriptionsMessage struct is declared outside src/); src/client.go reads
only its Topics field, the decoded topic list. -/
structure SubscriptionsMessage where
  Topics : List String
deriving DecidableEq, Repr

/-- Modelled from the spec: the publish variant of an inbound frame (the
PublishMessage struct is declared outside src/): a topic name plus an
opaque payload, forwarded verbatim. -/
structure PublishMessage where
  Topic : String
  Data : String
deriving DecidableEq, Repr

/-- Intents a connection sends to the Hub over its event channels:
hub.subscribe (Client.Subscribe), hub.unsubscribe (Client.Unsubscribe),
Hub.Publish, and hub.unregister (the deferred send in listenRead).  The
connection itself is implicit: the model tracks a single connection. -/
inductive Intent where
  | subscribe (topic : String)
  | unsubscribe (topic : String)
  | publish (msg : PublishMessage)
  | unregister
deriving DecidableEq, Repr

/-- One inbound frame as seen after JSON decoding.  json.Unmarshal is an
external library, so a frame is represented by its three possible decode
outcomes on the same payload: as the action envelope, as the subscribe
variant, and as the publish variant (none = decode error). -/
structure Frame where
  envelope : Option ActionMessage
  subMsg : Option SubscriptionsMessage
  pubMsg : Option PublishMessage
deriving DecidableEq, Repr

/-- AddTopic (src/client.go lines 50-53): appends the topic to the client
Topics slice, unconditionally. -/
def AddTopic (Topics : List String) (topic : String) : List String :=
  Topics ++ [topic]

/-- RemoveTopic (src/client.go lines 56-71): scans Topics for the first
index whose entry equals the topic (foundIdx, left at -1 when absent,
found by a loop that breaks at the first hit) and, when found, splices
that index out with append(Topics[:foundIdx], Topics[foundIdx+1:]...). -/
def RemoveTopic (Topics : List String) (topic : String) : List String :=
  match Topics.findIdx? (fun t => t == topic) with
  | some foundIdx => Topics.take foundIdx ++ Topics.drop (foundIdx + 1)
  | none => Topics

/-- UnsubscribeAll (src/client.go lines 97-101): iterates over the current
Topics slice and issues one Unsubscribe intent per topic, in slice
order. -/
def UnsubscribeAll (Topics : List String) : List Intent :=
  Topics.map Intent.unsubscribe

/-- SubscribeMultiple (src/client.go lines 83-87): issues one Subscribe
intent per topic of the given list, in list order. -/
def SubscribeMultiple (topics : List String) : List Intent :=
  topics.map Intent.subscribe

/-- Loop body of listenRead for one successfully read frame
(src/client.go lines 144-177), as the list of intents it issues given the
current Topics slice of the connection: on envelope decode failure nothing
is issued (log and continue); on action "subscribe" first UnsubscribeAll,
then, when the subscribe variant decodes, SubscribeMultiple on its topic
list; on any other action, when the publish variant decodes, a single
Publish intent. -/
def frameIntents (Topics : List String) (f : Frame) : List Intent :=
  match f.envelope with
  | none => []
  | some actionMessage =>
    if actionMessage.Action = "subscribe" then
      UnsubscribeAll Topics ++
        (match f.subMsg with
         | none => []
         | some subMsg => SubscribeMultiple subMsg.Topics)
    else
      match f.pubMsg with
      | none => []
      | some pubMsg => [Intent.publish pubMsg]

/-- Membership state of one connection as the Hub maintains it: the
Topics slice of the client (client.Topics) and the list of topics whose
subscriber set contains this connection. -/
structure HubView where
  Topics : List String
  subscribedTo : List String
deriving DecidableEq, Repr

/-- Modelled from the spec: the serialized Hub event handlers (hub.go is
not under src/), restricted to one connection.  Subscribe inserts the
connection into the subscriber set of the topic and appends the topic to
the client topic list if not already present (spec 4.1); the list append
is AddTopic from src/client.go.  Unsubscribe removes the connection from
the subscriber set of the topic and removes the topic from the client
list via RemoveTopic (src/client.go).  Publish only fans out payloads and
changes no membership.  Unregister removes the connection from every
subscriber set and removes its topic list (spec 4.1). -/
def processIntent (st : HubView) (i : Intent) : HubView :=
  match i with
  | Intent.subscribe topic =>
      { Topics := if topic ∈ st.Topics then st.Topics else AddTopic st.Topics topic
        subscribedTo :=
          if topic ∈ st.subscribedTo then st.subscribedTo
          else st.subscribedTo ++ [topic] }
  | Intent.unsubscribe topic =>
      { Topics := RemoveTopic st.Topics topic
        subscribedTo := st.subscribedTo.erase topic }
  | Intent.publish _ => st
  | Intent.unregister => { Topics := [], subscribedTo := [] }

/-- Hub processing of a list of intents, one at a time in arrival order
(the serialized event loop of spec 4.1). -/
def processIntents (st : HubView) (intents : List Intent) : HubView :=
  intents.foldl processIntent st

/-- One iteration of the read loop of listenRead either yields a decoded
frame or fails (read error, deadline expiry, oversized frame, peer close
all surface as an error from ReadMessage). -/
inductive ReadEvent where
  | frame (f : Frame)
  | readError
deriving DecidableEq, Repr

/-- Result of running the inbound pump over a list of read events: the
final membership state, the full trace of intents issued to the Hub, and
whether the loop has exited. -/
structure RunResult where
  state : HubView
  trace : List Intent
  exited : Bool
deriving DecidableEq, Repr

/-- listenRead (src/client.go lines 118-179) over a list of read events:
each decoded frame is handled by the loop body (frameIntents) and never
leaves the loop; the first read error breaks out of the loop, upon which
the deferred function issues a single Unregister intent.  Intents of one
frame are processed by the Hub before the next frame is handled (FIFO
delivery plus the serialized Hub loop, spec 5). -/
def listenRead (st : HubView) (events : List ReadEvent) : RunResult :=
  match events with
  | [] => { state := st, trace := [], exited := false }
  | ReadEvent.readError :: _ =>
      { state := st, trace := [Intent.unregister], exited := true }
  | ReadEvent.frame f :: rest =>
      let issued := frameIntents st.Topics f
      let st1 := processIntents st issued
      let r := listenRead st1 rest
      { state := r.state, trace := issued ++ r.trace, exited := r.exited }

/-- Shared close state of one connection: the one-shot closed flag
(Client.closed), whether the websocket transport has been closed, whether
the send channel has been closed, and counters of the close actions
performed on each. -/
structure CloseState where
  closed : Bool
  wsClosed : Bool
  sendClosed : Bool
  wsCloseCalls : Nat
  sendCloseCalls : Nat
deriving DecidableEq, Repr

/-- Client.close (src/client.go lines 104-115): when the closed flag is
not yet set, call ws.Close() -- a close action on the transport, returning
an error exactly when the websocket was already closed.  Only when that
call returns no error is close(c.send) performed; in either case the
closed flag is then set.  When the flag is already set, nothing happens. -/
def close (st : CloseState) : CloseState :=
  if st.closed then st
  else if st.wsClosed then
    { st with wsClosed := true, wsCloseCalls := st.wsCloseCalls + 1
              closed := true }
  else
    { st with wsClosed := true, wsCloseCalls := st.wsCloseCalls + 1
              sendClosed := true, sendCloseCalls := st.sendCloseCalls + 1
              closed := true }

/-- Deferred exit path of listenWrite (src/client.go lines 192-196): stop
the ticker and call ws.Close() unconditionally, without consulting the
closed guard and without touching the send channel. -/
def listenWriteExit (st : CloseState) : CloseState :=
  { st with wsClosed := true, wsCloseCalls := st.wsCloseCalls + 1 }

/-- A close request against the connection: either the guarded
Client.close (invoked by the Hub on unregister or eviction) or the
unconditional transport close on listenWrite exit. -/
inductive CloseRequest where
  | guarded
  | writePumpExit
deriving DecidableEq, Repr

/-- Runs a sequence of close requests against the close state. -/
def runCloses (st : CloseState) (reqs : List CloseRequest) : CloseState :=
  reqs.foldl
    (fun s r =>
      match r with
      | CloseRequest.guarded => close s
      | CloseRequest.writePumpExit => listenWriteExit s)
    st

/-- Fresh close state of a connection whose transport is open, whose send
channel is open and whose closed flag is unset. -/
def freshCloseState : CloseState :=
  { closed := false, wsClosed := false, sendClosed := false
    wsCloseCalls := 0, sendCloseCalls := 0 }

/-- Folds first-occurrence erasure of every element of M over an
accumulator list: the combined effect, on one membership list, of the
Unsubscribe intents that UnsubscribeAll issues for M. -/
def eraseAll (acc : List String) (M : List String) : List String :=
  List.foldl (fun l t => l.erase t) acc M

/-- Nanoseconds in one second, the unit of the Go time.Duration values. -/
def timeSecond : Int := 1000000000

/-- writeWait (src/client.go line 12): time allowed to write a message. -/
def writeWait : Int := 10 * timeSecond

/-- pongWait (src/client.go line 15): time allowed to read the next pong. -/
def pongWait : Int := 30 * timeSecond

/-- pingPeriod (src/client.go line 18): period of the keepalive pings. -/
def pingPeriod : Int := (pongWait * 9) / 10

/-- maxMessageSize (src/client.go line 21): maximum inbound frame size. -/
def maxMessageSize : Int := 512

/-- Client record as far as its construction is observable here: identity,
capacity of the send channel, Topics slice and closed flag. -/
structure Client where
  ID : String
  sendCapacity : Nat
  Topics : List String
  closed : Bool
deriving DecidableEq, Repr

/-- NewClient (src/client.go lines 41-48): make(chan []byte, 256) for the
send channel; Topics and closed start at their zero values. -/
def NewClient (ID : String) : Client :=
  { ID := ID, sendCapacity := 256, Topics := [], closed := false }

/-- RemoveTopic computes first-occurrence erasure: the find-then-splice of
src/client.go agrees with List.erase. -/
theorem RemoveTopic_eq_erase (Topics : List String) (topic : String) :
    RemoveTopic Topics topic = Topics.erase topic := by
  induction Topics with
  | nil => rfl
  | cons a ts ih =>
    by_cases h : a = topic
    · subst h
      simp [RemoveTopic, List.findIdx?_cons, List.erase_cons_head]
    · have hb : (a == topic) = false := by simp [h]
      have hfind : List.findIdx? (fun t => t == topic) (a :: ts) =
          Option.map (fun i => i + 1) (List.findIdx? (fun t => t == topic) ts) := by
        rw [List.findIdx?_cons, List.findIdx?_succ]
        simp [hb]
      rw [List.erase_cons_tail (by simp [h]), ← ih]
      unfold RemoveTopic
      rw [hfind]
      cases hf : List.findIdx? (fun t => t == topic) ts with
      | none => simp
      | some i => simp [List.take_succ_cons, List.drop_succ_cons]

/-- Processing a block of Unsubscribe intents erases the first occurrence
of each topic from both membership lists, in order. -/
theorem processIntents_unsub_map (M : List String) (st : HubView) :
    processIntents st (M.map Intent.unsubscribe) =
      { Topics := eraseAll st.Topics M
        subscribedTo := eraseAll st.subscribedTo M } := by
  induction M generalizing st with
  | nil => rfl
  | cons t ts ih =>
    have h1 : processIntents st ((t :: ts).map Intent.unsubscribe) =
        processIntents (processIntent st (Intent.unsubscribe t))
          (ts.map Intent.unsubscribe) := rfl
    rw [h1, ih]
    simp [processIntent, RemoveTopic_eq_erase, eraseAll]

/-- Erasing every element of a list from that same list empties it, even
in the presence of duplicates. -/
theorem eraseAll_self (M : List String) : eraseAll M M = [] := by
  induction M with
  | nil => rfl
  | cons t ts ih =>
    show eraseAll ((t :: ts).erase t) ts = []
    rw [List.erase_cons_head]
    exact ih

/-- UnsubscribeAll over the full current membership clears both views. -/
theorem unsubAll_clears (M : List String) :
    processIntents { Topics := M, subscribedTo := M } (M.map Intent.unsubscribe) =
      { Topics := [], subscribedTo := [] } := by
  rw [processIntents_unsub_map]
  simp [eraseAll_self]

/-- The loop body of listenRead never issues an Unregister intent. -/
theorem unregister_not_mem_frameIntents (M : List String) (f : Frame) :
    Intent.unregister ∉ frameIntents M f := by
  rcases f with ⟨env, sub, pub⟩
  cases env with
  | none => simp [frameIntents]
  | some a =>
    by_cases ha : a.Action = "subscribe"
    · cases sub <;> simp [frameIntents, ha, UnsubscribeAll, SubscribeMultiple]
    · cases pub <;> simp [frameIntents, ha]

/-- Hub intent processing preserves freedom from duplicates of the client
topic list. -/
theorem processIntent_topics_nodup (st : HubView) (i : Intent)
    (h : st.Topics.Nodup) : (processIntent st i).Topics.Nodup := by
  cases i with
  | subscribe t =>
    by_cases hm : t ∈ st.Topics
    · simpa [processIntent, hm] using h
    · simp [processIntent, hm, AddTopic, List.nodup_append,
        List.disjoint_singleton, h]
  | unsubscribe t =>
    simpa [processIntent, RemoveTopic_eq_erase] using List.Nodup.erase t h
  | publish m => simpa [processIntent] using h
  | unregister => simp [processIntent]

/-- Serialized processing of any intent sequence preserves freedom from
duplicates of the client topic list. -/
theorem processIntents_topics_nodup (intents : List Intent) (st : HubView)
    (h : st.Topics.Nodup) : (processIntents st intents).Topics.Nodup := by
  induction intents generalizing st with
  | nil => exact h
  | cons i rest ih =>
    exact ih (processIntent st i) (processIntent_topics_nodup st i h)

/-- Once the closed flag is set, no sequence of close requests changes the
send channel or resets the flag. -/
theorem runCloses_closed_frozen (reqs : List CloseRequest) (st : CloseState)
    (h : st.closed = true) :
    (runCloses st reqs).sendClosed = st.sendClosed ∧
    (runCloses st reqs).closed = true := by
  induction reqs generalizing st with
  | nil => exact ⟨rfl, h⟩
  | cons r rs ih =>
    cases r with
    | guarded =>
      show (runCloses (close st) rs).sendClosed = st.sendClosed ∧
        (runCloses (close st) rs).closed = true
      have hcl : close st = st := by simp [close, h]
      rw [hcl]
      exact ih st h
    | writePumpExit =>
      show (runCloses (listenWriteExit st) rs).sendClosed = st.sendClosed ∧
        (runCloses (listenWriteExit st) rs).closed = true
      have h2 := ih (listenWriteExit st) (by simp [listenWriteExit, h])
      simpa [listenWriteExit] using h2

/-- The send channel is close-actioned at most once along any sequence of
close requests, given the counting invariant of the guard. -/
theorem runCloses_send_le_one (reqs : List CloseRequest) (st : CloseState)
    (h0 : st.closed = false → st.sendCloseCalls = 0)
    (h1 : st.sendCloseCalls ≤ 1) :
    (runCloses st reqs).sendCloseCalls ≤ 1 := by
  induction reqs generalizing st with
  | nil => exact h1
  | cons r rs ih =>
    cases r with
    | guarded =>
      show (runCloses (close st) rs).sendCloseCalls ≤ 1
      by_cases hc : st.closed
      · have hcl : close st = st := by simp [close, hc]
        rw [hcl]
        exact ih st h0 h1
      · have hc0 : st.closed = false := by simpa using hc
        have hz := h0 hc0
        apply ih
        · intro hfalse
          by_cases hws : st.wsClosed <;> simp [close, hc0, hws] at hfalse
        · by_cases hws : st.wsClosed <;> simp [close, hc0, hws] <;> omega
    | writePumpExit =>
      show (runCloses (listenWriteExit st) rs).sendCloseCalls ≤ 1
      apply ih
      · intro hfalse
        exact h0 (by simpa [listenWriteExit] using hfalse)
      · simpa [listenWriteExit] using h1

/-- Claim C1: on a connection subscribed to topic set M (topic list and
subscriber-set view coincide by the bidirectional invariant), a
well-formed subscribe frame with topic list L first issues one
Unsubscribe intent per topic of M and only then one Subscribe intent per
topic of L in list order; the Unsubscribe block clears all of M, and when
L is empty the connection ends subscribed to nothing. -/
theorem subscribe_action_clears_then_applies (M L S : List String) (f : Frame)
    (henv : f.envelope = some { Action := "subscribe" })
    (hsub : f.subMsg = some { Topics := L })
    (hinv : S = M) :
    frameIntents M f = M.map Intent.unsubscribe ++ L.map Intent.subscribe ∧
    processIntents { Topics := M, subscribedTo := S } (M.map Intent.unsubscribe) =
      { Topics := [], subscribedTo := [] } ∧
    (L = [] →
      processIntents { Topics := M, subscribedTo := S } (frameIntents M f) =
        { Topics := [], subscribedTo := [] }) := by
  have h1 : frameIntents M f = M.map Intent.unsubscribe ++ L.map Intent.subscribe := by
    simp [frameIntents, henv, hsub, UnsubscribeAll, SubscribeMultiple]
  have h2 : processIntents { Topics := M, subscribedTo := S }
      (M.map Intent.unsubscribe) = { Topics := [], subscribedTo := [] } := by
    rw [hinv]
    exact unsubAll_clears M
  refine ⟨h1, h2, ?_⟩
  intro hL
  subst hL
  rw [h1]
  simpa using h2

/-- Witness for C1 at M = [a, b], L = []. -/
theorem subscribe_action_clears_then_applies_witness :
    processIntents { Topics := ["a", "b"], subscribedTo := ["a", "b"] }
        (frameIntents ["a", "b"]
          { envelope := some { Action := "subscribe" }
            subMsg := some { Topics := [] }, pubMsg := none }) =
      { Topics := [], subscribedTo := [] } :=
  (subscribe_action_clears_then_applies ["a", "b"] [] ["a", "b"]
      { envelope := some { Action := "subscribe" }
        subMsg := some { Topics := [] }, pubMsg := none } rfl rfl rfl).2.2 rfl

/-- Claim C2, counterexample: on the topic list [t, t], processing
Unsubscribe(t) leaves t in the list, because RemoveTopic splices out only
the first index found; the claim as stated (t gone from any prior list,
including lists holding t more than once) is therefore false. -/
theorem remove_topic_duplicate_cex :
    "t" ∈ (processIntent { Topics := ["t", "t"], subscribedTo := ["t"] }
        (Intent.unsubscribe "t")).Topics := by decide

/-- Claim C2, amended: processing Unsubscribe(T, C) erases exactly the
first occurrence of T from the topic list of C; whenever T occurs at most
once in the topic list (as in every duplicate-free reachable state) and
at most once in the subscriber-set view, T no longer appears in either
afterwards. -/
theorem unsubscribe_removes_first_occurrence (Topics S : List String) (T : String)
    (hT : Topics.count T ≤ 1) (hS : S.count T ≤ 1) :
    RemoveTopic Topics T = Topics.erase T ∧
    T ∉ (processIntent { Topics := Topics, subscribedTo := S }
        (Intent.unsubscribe T)).Topics ∧
    T ∉ (processIntent { Topics := Topics, subscribedTo := S }
        (Intent.unsubscribe T)).subscribedTo := by
  refine ⟨RemoveTopic_eq_erase Topics T, ?_, ?_⟩
  · show T ∉ RemoveTopic Topics T
    rw [RemoveTopic_eq_erase]
    intro hmem
    have h1 := List.count_erase_self T Topics
    have h2 : 0 < (Topics.erase T).count T := List.count_pos_iff.mpr hmem
    omega
  · show T ∉ S.erase T
    intro hmem
    have h1 := List.count_erase_self T S
    have h2 : 0 < (S.erase T).count T := List.count_pos_iff.mpr hmem
    omega

/-- Witness for the amended C2 at topic list [t]. -/
theorem unsubscribe_removes_first_occurrence_witness :
    "t" ∉ (processIntent { Topics := ["t"], subscribedTo := ["t"] }
        (Intent.unsubscribe "t")).Topics :=
  (unsubscribe_removes_first_occurrence ["t"] ["t"] "t"
    (by decide) (by decide)).2.1

/-- Claim C3: processing Subscribe(T, C) leaves the topic list unchanged
when T is already present and appends T (AddTopic) when it is not, so
starting from the empty list every sequence of Hub intents leaves the
topic list free of duplicates. -/
theorem subscribe_guard_no_duplicates (st : HubView) (T : String)
    (intents : List Intent) (hmem : T ∈ st.Topics) :
    (processIntent st (Intent.subscribe T)).Topics = st.Topics ∧
    (∀ st2 : HubView, T ∉ st2.Topics →
      (processIntent st2 (Intent.subscribe T)).Topics = AddTopic st2.Topics T) ∧
    (processIntents { Topics := [], subscribedTo := [] } intents).Topics.Nodup := by
  refine ⟨by simp [processIntent, hmem], fun st2 h2 => by simp [processIntent, h2], ?_⟩
  exact processIntents_topics_nodup intents { Topics := [], subscribedTo := [] } (by simp)

/-- Witness for C3: a repeated subscribe to a leaves the list [a]. -/
theorem subscribe_guard_no_duplicates_witness :
    (processIntent { Topics := ["a"], subscribedTo := ["a"] }
        (Intent.subscribe "a")).Topics = ["a"] :=
  (subscribe_guard_no_duplicates { Topics := ["a"], subscribedTo := ["a"] }
    "a" [] (by decide)).1

/-- Claim C4, counterexample: after a guarded close has already closed the
transport and set the flag, the listenWrite exit path still performs a
second close action on the transport (it calls ws.Close() without
consulting the guard), so the transport is not closed at most once and a
close request after the first is not a no-op. -/
theorem transport_close_twice_cex :
    (runCloses freshCloseState [CloseRequest.guarded]).closed = true ∧
    (runCloses freshCloseState
      [CloseRequest.guarded, CloseRequest.writePumpExit]).wsCloseCalls = 2 := by
  decide

/-- Claim C4, amended: across any sequence of close requests from the
pumps and the Hub, the outbound send channel is close-actioned at most
once, and a guarded Client.close on a connection whose closed flag is
already set performs no action at all; the transport close, however, is
not guarded on the listenWrite exit path. -/
theorem close_guard_send_once (reqs : List CloseRequest) (st : CloseState)
    (h : st.closed = true) :
    (runCloses freshCloseState reqs).sendCloseCalls ≤ 1 ∧ close st = st := by
  constructor
  · exact runCloses_send_le_one reqs freshCloseState (fun _ => rfl) (by decide)
  · simp [close, h]

/-- Witness for the amended C4 on a double guarded close after a write
pump exit. -/
theorem close_guard_send_once_witness :
    (runCloses freshCloseState
      [CloseRequest.writePumpExit, CloseRequest.guarded,
       CloseRequest.guarded]).sendCloseCalls ≤ 1 ∧
    close { closed := true, wsClosed := true, sendClosed := true
            wsCloseCalls := 1, sendCloseCalls := 1 } =
      { closed := true, wsClosed := true, sendClosed := true
        wsCloseCalls := 1, sendCloseCalls := 1 } :=
  close_guard_send_once
    [CloseRequest.writePumpExit, CloseRequest.guarded, CloseRequest.guarded]
    { closed := true, wsClosed := true, sendClosed := true
      wsCloseCalls := 1, sendCloseCalls := 1 } rfl

/-- Claim C5: a decode failure is never fatal: a frame whose envelope does
not decode yields no intents; a subscribe frame whose topic list does not
decode yields no Subscribe intent; a frame whose publish payload does not
decode yields no Publish intent; and after any frame, well-formed or not,
the read loop continues, the pump stays in its loop, and the following
events are processed exactly as they would be from the updated state. -/
theorem decode_failure_nonfatal (st : HubView) (f : Frame)
    (events : List ReadEvent) :
    (f.envelope = none → frameIntents st.Topics f = []) ∧
    (f.subMsg = none → ∀ T, Intent.subscribe T ∉ frameIntents st.Topics f) ∧
    (f.pubMsg = none → ∀ p, Intent.publish p ∉ frameIntents st.Topics f) ∧
    (listenRead st (ReadEvent.frame f :: events)).exited =
      (listenRead (processIntents st (frameIntents st.Topics f)) events).exited ∧
    (listenRead st (ReadEvent.frame f :: events)).trace =
      frameIntents st.Topics f ++
        (listenRead (processIntents st (frameIntents st.Topics f)) events).trace := by
  refine ⟨?_, ?_, ?_, rfl, rfl⟩
  · intro h
    simp [frameIntents, h]
  · rcases f with ⟨env, sub, pub⟩
    intro h T
    simp only at h
    subst h
    cases env with
    | none => simp [frameIntents]
    | some a =>
      by_cases ha : a.Action = "subscribe"
      · simp [frameIntents, ha, UnsubscribeAll]
      · cases pub <;> simp [frameIntents, ha]
  · rcases f with ⟨env, sub, pub⟩
    intro h p
    simp only at h
    subst h
    cases env with
    | none => simp [frameIntents]
    | some a =>
      by_cases ha : a.Action = "subscribe"
      · cases sub <;> simp [frameIntents, ha, UnsubscribeAll, SubscribeMultiple]
      · simp [frameIntents, ha]

/-- Witness for C5: a fully undecodable frame yields no intents, and the
loop afterwards still reaches the read error and unregisters. -/
theorem decode_failure_nonfatal_witness :
    frameIntents ([] : List String)
      { envelope := none, subMsg := none, pubMsg := none } = [] ∧
    Intent.subscribe "a" ∉ frameIntents ([] : List String)
      { envelope := none, subMsg := none, pubMsg := none } :=
  ⟨(decode_failure_nonfatal { Topics := [], subscribedTo := [] }
      { envelope := none, subMsg := none, pubMsg := none } []).1 rfl,
   (decode_failure_nonfatal { Topics := [], subscribedTo := [] }
      { envelope := none, subMsg := none, pubMsg := none } []).2.1 rfl "a"⟩

/-- Claim C6: a frame whose envelope decodes to any action other than
subscribe and whose payload decodes as a publish message yields exactly
the one Publish intent carrying that payload, and in particular no
Subscribe or Unsubscribe intents. -/
theorem default_action_publishes (M : List String) (f : Frame)
    (a : ActionMessage) (p : PublishMessage) (henv : f.envelope = some a)
    (hact : a.Action ≠ "subscribe") (hpub : f.pubMsg = some p) :
    frameIntents M f = [Intent.publish p] := by
  simp [frameIntents, henv, hact, hpub]

/-- Witness for C6 on an unrecognized action string. -/
theorem default_action_publishes_witness :
    frameIntents ["a"]
      { envelope := some { Action := "frobnicate" }, subMsg := none
        pubMsg := some { Topic := "w", Data := "d" } } =
      [Intent.publish { Topic := "w", Data := "d" }] :=
  default_action_publishes ["a"] _ { Action := "frobnicate" }
    { Topic := "w", Data := "d" } rfl (by decide) rfl

/-- Claim C7: whenever the read loop exits, the trace of intents issued by
the pump ends with an Unregister intent and contains no other Unregister,
so exactly one Unregister is issued, after all frame intents, before the
pump terminates. -/
theorem read_exit_unregisters_once (st : HubView) (events : List ReadEvent)
    (h : (listenRead st events).exited = true) :
    ∃ pre : List Intent,
      (listenRead st events).trace = pre ++ [Intent.unregister] ∧
      Intent.unregister ∉ pre := by
  induction events generalizing st with
  | nil => simp [listenRead] at h
  | cons e rest ih =>
    cases e with
    | readError => exact ⟨[], rfl, by simp⟩
    | frame f =>
      have hx : (listenRead (processIntents st (frameIntents st.Topics f))
          rest).exited = true := h
      obtain ⟨pre, hpre, hnot⟩ :=
        ih (processIntents st (frameIntents st.Topics f)) hx
      refine ⟨frameIntents st.Topics f ++ pre, ?_, ?_⟩
      · show frameIntents st.Topics f ++
          (listenRead (processIntents st (frameIntents st.Topics f))
            rest).trace = _
        rw [hpre, List.append_assoc]
      · intro hmem
        rcases List.mem_append.mp hmem with h1 | h2
        · exact unregister_not_mem_frameIntents st.Topics f h1
        · exact hnot h2

/-- Witness for C7 on an immediate read error. -/
theorem read_exit_unregisters_once_witness :
    ∃ pre : List Intent,
      (listenRead { Topics := [], subscribedTo := [] }
        [ReadEvent.readError]).trace = pre ++ [Intent.unregister] ∧
      Intent.unregister ∉ pre :=
  read_exit_unregisters_once { Topics := [], subscribedTo := [] }
    [ReadEvent.readError] rfl

/-- Claim C8: a subscribe frame whose topic-list payload does not decode
issues the Unsubscribe intents for all of M but no Subscribe intent, and
processing those intents leaves the connection subscribed to no topic:
the unsubscribe-all takes effect despite the decode error. -/
theorem malformed_subscribe_clears_state (M S : List String) (f : Frame)
    (henv : f.envelope = some { Action := "subscribe" })
    (hsub : f.subMsg = none) (hinv : S = M) :
    frameIntents M f = M.map Intent.unsubscribe ∧
    (∀ T, Intent.subscribe T ∉ frameIntents M f) ∧
    processIntents { Topics := M, subscribedTo := S } (frameIntents M f) =
      { Topics := [], subscribedTo := [] } := by
  have h1 : frameIntents M f = M.map Intent.unsubscribe := by
    simp [frameIntents, henv, hsub, UnsubscribeAll]
  refine ⟨h1, ?_, ?_⟩
  · intro T hm
    rw [h1] at hm
    simp [List.mem_map] at hm
  · rw [h1, hinv]
    exact unsubAll_clears M

/-- Witness for C8 at M = [a, b]. -/
theorem malformed_subscribe_clears_state_witness :
    processIntents { Topics := ["a", "b"], subscribedTo := ["a", "b"] }
        (frameIntents ["a", "b"]
          { envelope := some { Action := "subscribe" }
            subMsg := none, pubMsg := none }) =
      { Topics := [], subscribedTo := [] } :=
  (malformed_subscribe_clears_state ["a", "b"] ["a", "b"]
      { envelope := some { Action := "subscribe" }
        subMsg := none, pubMsg := none } rfl rfl rfl).2.2

/-- Claim C9: the tunables match their specified defaults: write deadline
10 s, pong wait 30 s, ping period (pongWait times 9) / 10 = 27 s and
strictly below the pong wait, maximum inbound frame size 512 bytes, and
send channel capacity 256 for every new client. -/
theorem timing_constants :
    writeWait = 10 * timeSecond ∧ pongWait = 30 * timeSecond ∧
    pingPeriod = (pongWait * 9) / 10 ∧ pingPeriod = 27 * timeSecond ∧
    pingPeriod < pongWait ∧ maxMessageSize = 512 ∧
    ∀ ID : String, (NewClient ID).sendCapacity = 256 :=
  ⟨rfl, rfl, rfl, by decide, by decide, rfl, fun _ => rfl⟩

/-- Claim C10: when close runs with the flag unset and the transport close
fails because the websocket is already closed, the send channel is not
closed although the flag is set, every later close request leaves the
send channel untouched forever, and the send channel is closed exactly on
the path where the transport close succeeds. -/
theorem close_ws_failure_keeps_send_open (st : CloseState)
    (hFlag : st.closed = false) (hWs : st.wsClosed = true) :
    (close st).sendClosed = st.sendClosed ∧
    (close st).sendCloseCalls = st.sendCloseCalls ∧
    (close st).closed = true ∧
    (∀ reqs : List CloseRequest,
      (runCloses (close st) reqs).sendClosed = st.sendClosed) ∧
    (∀ s : CloseState, s.closed = false → s.wsClosed = false →
      (close s).sendClosed = true) := by
  refine ⟨by simp [close, hFlag, hWs], by simp [close, hFlag, hWs],
    by simp [close, hFlag, hWs], ?_, fun s h1 h2 => by simp [close, h1, h2]⟩
  intro reqs
  have hc : (close st).closed = true := by simp [close, hFlag, hWs]
  have h1 := (runCloses_closed_frozen reqs (close st) hc).1
  rw [h1]
  simp [close, hFlag, hWs]

/-- Witness for C10 on a fresh connection whose websocket is already
closed. -/
theorem close_ws_failure_keeps_send_open_witness :
    (close { closed := false, wsClosed := true, sendClosed := false
             wsCloseCalls := 1, sendCloseCalls := 0 }).sendClosed = false ∧
    (close { closed := false, wsClosed := true, sendClosed := false
             wsCloseCalls := 1, sendCloseCalls := 0 }).closed = true :=
  ⟨(close_ws_failure_keeps_send_open
      { closed := false, wsClosed := true, sendClosed := false
        wsCloseCalls := 1, sendCloseCalls := 0 } rfl rfl).1,
   (close_ws_failure_keeps_send_open
      { closed := false, wsClosed := true, sendClosed := false
        wsCloseCalls := 1, sendCloseCalls := 0 } rfl rfl).2.2.1⟩

end Hub
